import Mathlib

/-!
Verification of the query-resolution core of the support-triage agent
(`agent_logic.py`).  The Python source is embedded shallowly:

* `Faq` is the FAQ record shape of `faq_kb.py` (`question`/`answer`/`category`).
* `ResolutionOutcome` is the 4-tuple returned by `SupportAgent.process_query`
  (reply text, escalated flag, escalation reason, suggested quick actions).
* `Env` packages the runtime collaborators of a `SupportAgent` instance:
  the FAQ corpus, the external similarity scorer `fuzz.token_set_ratio`
  (an external library function, modelled as a parameter returning a raw
  0-100 integer score on the lower-cased strings the code passes to it),
  the `llm_available` flag, and the generative backend, modelled as a
  function from the prompt to `Except` (exception or returned text).
* `ResolveResult` carries, next to the outcome, two counters recording how
  many times `find_matching_faq` and `_call_model` were invoked on the path
  taken, so that the "never calls the Adapter / performs no FAQ work" parts
  of the spec are expressible.
* Python floats appear only as `best_score / 100.0` with `best_score` an
  integer in 0..100 compared against 0.75 and 0.5; all those comparisons are
  exact in binary floating point, so confidence is embedded as `ℚ`.
-/

set_option maxHeartbeats 1000000

namespace SupportAgent

/-- An FAQ record of `faq_kb.py`: `{question, answer, category}`. -/
structure Faq where
  question : String
  answer : String
  category : String
deriving DecidableEq

/-- The result 4-tuple of `SupportAgent.process_query`
`(reply, escalated, escalation_reason, suggested_actions)`. -/
structure ResolutionOutcome where
  reply_text : String
  escalated : Bool
  escalation_reason : Option String
  suggested_actions : Option (List String)
deriving DecidableEq

/-- Outcome of one `process_query` call plus instrumentation: the number of
`find_matching_faq` invocations and backend (`_call_model`) invocations
performed on the control path that was taken. -/
structure ResolveResult where
  outcome : ResolutionOutcome
  matcherCalls : Nat
  backendCalls : Nat
deriving DecidableEq

/-- The runtime collaborators of a `SupportAgent`: the FAQ corpus, the
external fuzzy scorer (`fuzz.token_set_ratio`, returning an integer 0-100),
availability of the generative backend, and the backend call itself
(`.error` models a raised exception inside `_call_model`, `.ok` its
returned text). -/
structure Env where
  faq_db : List Faq
  score : String → String → Nat
  llm_available : Bool
  callModel : String → Except String String

/-- Python `str.strip()`: drop whitespace from both ends.  (Defined on the
character list so that it evaluates by kernel reduction.) -/
def pyStrip (s : String) : String :=
  ⟨((s.data.dropWhile Char.isWhitespace).reverse.dropWhile Char.isWhitespace).reverse⟩

/-- Python `str.lower()`: lower-case every character. -/
def pyLower (s : String) : String :=
  ⟨s.data.map Char.toLower⟩

/-- `SupportAgent._is_greeting`: exact membership of the trimmed, lower-cased
query in the fixed greeting set. -/
def is_greeting (query : String) : Bool :=
  ["hi", "hello", "hey", "hii", "hola", "yo", "hiya"].contains
    (pyLower (pyStrip query))

/-- The fixed escalation keyword list of
`SupportAgent.detect_escalation_keywords`. -/
def escalation_keywords : List String :=
  ["urgent", "critical", "emergency", "asap", "immediately",
   "broken", "not working", "error", "angry", "refund",
   "cancel", "speak to", "human", "manager", "lawsuit"]

/-- Substring containment on character lists: Python\x27s `needle in hay`.
`needle` occurs in `hay` iff it is a prefix of some suffix of `hay`. -/
def hasSubstr (needle : List Char) : List Char → Bool
  | [] => needle.isEmpty
  | c :: rest => needle.isPrefixOf (c :: rest) || hasSubstr needle rest

/-- `SupportAgent.detect_escalation_keywords`: case-insensitive substring
containment of any keyword in the query (`k in q` on the lower-cased query). -/
def detect_escalation_keywords (query : String) : Bool :=
  let q := pyLower query
  escalation_keywords.any (fun k => hasSubstr k.data q.data)

/-- The accumulator loop of `SupportAgent.find_matching_faq`: walk the corpus
keeping `(best_match, best_score)`, replacing them only on a strictly greater
score (so the first record attaining the maximum is kept). -/
def findLoop (sc : Faq → Nat) : List Faq → Option Faq → Nat → Option Faq × Nat
  | [], best, bestScore => (best, bestScore)
  | faq :: rest, best, bestScore =>
    if sc faq > bestScore then findLoop sc rest (some faq) (sc faq)
    else findLoop sc rest best bestScore

/-- The per-record raw similarity computed inside `find_matching_faq`:
`fuzz.token_set_ratio(query.lower(), faq.get("question", "").lower())`. -/
def matchScore (env : Env) (query : String) (faq : Faq) : Nat :=
  env.score (pyLower query) (pyLower faq.question)

/-- `SupportAgent.find_matching_faq`: score every record with
`fuzz.token_set_ratio` on the lower-cased strings, keep the best, and return
`(best, best_score / 100)` when the best raw score is at least 60, else
`(None, 0.0)`. -/
def find_matching_faq (env : Env) (query : String) : Option Faq × ℚ :=
  let r := findLoop (matchScore env query) env.faq_db none 0
  if r.2 ≥ 60 then (r.1, (r.2 : ℚ) / 100) else (none, 0)

/-- The persona instruction `SupportAgent.system_instruction` (two adjacent
Python string literals, concatenated). -/
def system_instruction : String :=
  "You are a friendly, expert AI assistant. Answer conversationally like ChatGPT. " ++
  "Ask clarification questions when helpful and offer follow-up help."

/-- The generation prompt built in `process_query` from the matched FAQ
(if any) and the trimmed query. -/
def mkPromptWith (faq? : Option Faq) (q : String) : String :=
  let ctx : String :=
    match faq? with
    | some faq =>
      "Relevant FAQ context:\nFAQ: " ++ faq.question ++ "\nAnswer: " ++
        faq.answer ++ "\n\n"
    | none => ""
  system_instruction ++ "\n\n" ++ ctx ++ "User: " ++ q ++ "\nAssistant:"

/-- The prompt `process_query` sends to the backend for a given query. -/
def mkPrompt (env : Env) (q : String) : String :=
  mkPromptWith (find_matching_faq env q).1 q

/-- The generic "can\x27t fully answer" fallback of `process_query`
(lines 411-416): fixed text plus the two quick actions. -/
def genericFallback (bc : Nat) : ResolveResult :=
  ⟨⟨"Sorry — I can\x27t generate a full answer right now. I can show relevant FAQs or connect you to human support. Which would you prefer?",
    false, none, some ["Show FAQs", "Talk to human"]⟩, 1, bc⟩

/-- The post-backend fallbacks of `process_query` (lines 403-416): the
medium-confidence soft FAQ suggestion when a match exists with
confidence ≥ 0.5, else the generic fallback.  `bc` is the number of backend
calls already made on this path. -/
def fallbacks (faq? : Option Faq) (confidence : ℚ) (bc : Nat) : ResolveResult :=
  match faq? with
  | some faq =>
    if confidence ≥ (1 : ℚ) / 2 then
      ⟨⟨"It looks like this FAQ might help:\n\nQ: " ++ faq.question ++
          "\nA: " ++ faq.answer ++
          "\n\nIf that doesn\x27t answer your question, reply and I\x27ll connect you to support.",
        false, none, none⟩, 1, bc⟩
    else genericFallback bc
  | none => genericFallback bc

/-- The backend step of `process_query` (lines 389-401): when the LLM is
available, call it on the built prompt; a non-empty trimmed answer is
returned directly, an exception or an empty answer falls through to the
fallbacks. -/
def tryModel (env : Env) (q : String) (faq? : Option Faq) (confidence : ℚ) :
    ResolveResult :=
  if env.llm_available then
    match env.callModel (mkPromptWith faq? q) with
    | Except.ok s =>
      if s ≠ "" ∧ pyStrip s ≠ "" then ⟨⟨pyStrip s, false, none, none⟩, 1, 1⟩
      else fallbacks faq? confidence 1
    | Except.error _ => fallbacks faq? confidence 1
  else fallbacks faq? confidence 0

/-- The part of `process_query` after the matcher ran (lines 369-416):
high-confidence short-circuit (`faq and confidence >= 0.75`), then the
backend attempt, then the fallbacks. -/
def afterMatch (env : Env) (q : String) (faq? : Option Faq) (confidence : ℚ) :
    ResolveResult :=
  match faq? with
  | some faq =>
    if confidence ≥ (75 : ℚ) / 100 then
      ⟨⟨"Based on our knowledge base:\n\nQ: " ++ faq.question ++ "\nA: " ++
          faq.answer ++
          "\n\nWould you like more details or to talk to a human?",
        false, none, none⟩, 1, 0⟩
    else tryModel env q faq? confidence
  | none => tryModel env q faq? confidence

/-- `SupportAgent.process_query` (lines 346-416): trim; empty prompt-for-input;
greeting; escalation; FAQ match; high-confidence short-circuit; backend;
fallbacks. -/
def process_query (env : Env) (user_query : String) : ResolveResult :=
  let q := pyStrip user_query
  if q = "" then
    ⟨⟨"Please type your question so I can help you.", false, none, none⟩, 0, 0⟩
  else if is_greeting q then
    ⟨⟨"Hi there! 👋 I\x27m your assistant — how can I help today?",
      false, none, some ["Check FAQs", "Report an issue", "Talk to a human"]⟩, 0, 0⟩
  else if detect_escalation_keywords q then
    ⟨⟨"This looks urgent. I\x27m escalating this to a human support agent.",
      true, some "Contains urgent/critical keywords", none⟩, 0, 0⟩
  else
    let fm := find_matching_faq env q
    afterMatch env q fm.1 fm.2

/-! Backend payload model.

`_call_model` receives, per attempt, either a raised exception or a response
payload of unknown shape.  `PV` models a Python value as far as
`_extract_text` inspects one: a string, a list, a dict (association list with
first-key-wins lookup, as Python dicts have unique keys), an object carrying an
optional string-valued `text` attribute, an optional `content` attribute and a
textual representation, or any other value known only by its textual
representation. -/

/-- A Python value as inspected by `_extract_text` when digging into dict
values, `outputs` and `candidates`. -/
inductive PV where
  | vstr (s : String)
  | vlist (l : List PV)
  | vdict (entries : List (String × PV))
  | vobj (text : Option String) (content : Option PV) (rep : String)
  | vother (rep : String)

mutual

/-- Python `repr` of a payload value as it appears inside a container
(strings quoted); for a dict this is also its `str`. -/
def pvRepr : PV → String
  | PV.vstr s => "\x27" ++ s ++ "\x27"
  | PV.vlist l => "[" ++ pvListRepr l ++ "]"
  | PV.vdict entries => "\x7b" ++ pvEntriesRepr entries ++ "\x7d"
  | PV.vobj _ _ rep => rep
  | PV.vother rep => rep

/-- Comma-separated reprs of the elements of a Python list. -/
def pvListRepr : List PV → String
  | [] => ""
  | [v] => pvRepr v
  | v :: rest => pvRepr v ++ ", " ++ pvListRepr rest

/-- Comma-separated `key: value` reprs of the items of a Python dict. -/
def pvEntriesRepr : List (String × PV) → String
  | [] => ""
  | [(k, v)] => "\x27" ++ k ++ "\x27: " ++ pvRepr v
  | (k, v) :: rest =>
    "\x27" ++ k ++ "\x27: " ++ pvRepr v ++ ", " ++ pvEntriesRepr rest

end

/-- Python `str` of a dict. -/
def dictStr (entries : List (String × PV)) : String :=
  pvRepr (PV.vdict entries)

/-- Python dict lookup `d[k]` on the association-list model. -/
def dlookup (entries : List (String × PV)) (k : String) : Option PV :=
  (entries.find? (fun p => p.1 == k)).map Prod.snd

/-- The inner loop `for kk in (...): if kk in first and isinstance(first[kk],
str): return first[kk]` of `_extract_text`: first key bound to a string
value wins. -/
def lookupStrKeys (entries : List (String × PV)) : List String → Option String
  | [] => none
  | k :: ks =>
    match dlookup entries k with
    | some (PV.vstr s) => some s
    | _ => lookupStrKeys entries ks

/-- `_extract_text` digging into a non-empty list value of a dict key
(lines 176-191): a dict first element yields one of its `text`/`content`/
`message` string values or, failing that, its stringification; a string first
element is returned; anything else yields nothing (the key loop continues). -/
def digFirst (first : PV) : Option String :=
  match first with
  | PV.vdict fe =>
    (match lookupStrKeys fe ["text", "content", "message"] with
     | some s => some s
     | none => some (pvRepr (PV.vdict fe)))
  | PV.vstr s => some s
  | _ => none

/-- The dict branch key loop of `_extract_text` (lines 170-193) over the
candidate result keys. -/
def extractDictKeys (entries : List (String × PV)) : List String → Option String
  | [] => none
  | k :: ks =>
    match dlookup entries k with
    | some (PV.vlist (first :: _)) =>
      (match digFirst first with
       | some s => some s
       | none => extractDictKeys entries ks)
    | some (PV.vstr s) => some s
    | some _ => extractDictKeys entries ks
    | none => extractDictKeys entries ks

/-- The candidate result keys tried on a dict payload (line 172). -/
def result_keys : List String :=
  ["text", "content", "output", "outputs", "candidates", "message", "messages"]

/-- `_extract_text` digging into `outputs[0]` (lines 200-219): a string-valued
`text` attribute, else a `content` attribute holding a non-empty list whose
first element is a dict with a `text`/`content`/`message` string value. -/
def digOut (out0 : PV) : Option String :=
  match out0 with
  | PV.vobj (some s) _ _ => some s
  | PV.vobj none (some (PV.vlist (first :: _))) _ =>
    (match first with
     | PV.vdict fe => lookupStrKeys fe ["text", "content", "message"]
     | _ => none)
  | _ => none

/-- `_extract_text` digging into `candidates[0]` (lines 221-231): a dict with
an `output`/`content`/`text` string value, else a string-valued `text`
attribute. -/
def digCand (cand0 : PV) : Option String :=
  match cand0 with
  | PV.vdict entries => lookupStrKeys entries ["output", "content", "text"]
  | PV.vobj (some s) _ _ => some s
  | _ => none

/-- The `candidates` attribute branch of `_extract_text`: only entered for a
non-empty list value. -/
def digCandList : Option (List PV) → Option String
  | some (cand0 :: _) => digCand cand0
  | some [] => none
  | none => none

/-- A backend response payload as classified by `_extract_text`\x27s top-level
branches: a plain string, a dict, or any other object with optional
string-valued `text`/`content` attributes, optional list-valued `outputs`/
`candidates` attributes, and a textual representation. -/
inductive Resp where
  | rstr (s : String)
  | rdict (entries : List (String × PV))
  | robj (text : Option String) (content : Option String)
      (outputs : Option (List PV)) (candidates : Option (List PV))
      (rep : String)

/-- `SupportAgent._call_model._extract_text` (lines 159-232): parse a payload
of unknown shape into text.  A dict on which no candidate key applies falls to
the `try: return str(resp)` last resort (line 194-198), which in this model
(where stringification never raises) always succeeds. -/
def extract_text : Resp → Option String
  | Resp.rstr s => some s
  | Resp.rdict entries =>
    (match extractDictKeys entries result_keys with
     | some s => some s
     | none => some (dictStr entries))
  | Resp.robj text? content? outputs? candidates? _ =>
    match text? with
    | some s => some s
    | none =>
      match content? with
      | some s => some s
      | none =>
        match outputs? with
        | some (out0 :: _) =>
          (match digOut out0 with
           | some s => some s
           | none => digCandList candidates?)
        | some [] => digCandList candidates?
        | none => digCandList candidates?

/-- Python `str(resp)` of a payload. -/
def respStr : Resp → String
  | Resp.rstr s => s
  | Resp.rdict entries => dictStr entries
  | Resp.robj _ _ _ _ rep => rep

/-- The raw-stringification fallback of one `_call_model` attempt
(lines 332-337): accept `str(resp).strip()` only when it is non-empty and
longer than 10 characters. -/
def strFallback (r : Resp) : Option String :=
  let s := respStr r
  if s ≠ "" ∧ pyStrip s ≠ "" ∧ 10 < (pyStrip s).length then some (pyStrip s)
  else none

/-- What one successfully executed call attempt yields in `_call_model`
(lines 326-337): the extracted text if truthy, else the guarded raw
stringification. -/
def attemptText (r : Resp) : Option String :=
  match extract_text r with
  | some t => if t ≠ "" then some t else strFallback r
  | none => strFallback r

/-- One entry of the prioritized attempt sequence of `_call_model`: the call
either raised an exception or produced a response payload. -/
inductive Attempt where
  | exc (e : String)
  | resp (r : Resp)

/-- The text an attempt contributes: nothing for a raised exception, else
whatever `attemptText` accepts. -/
def attemptYield : Attempt → Option String
  | Attempt.exc _ => none
  | Attempt.resp r => attemptText r

/-- The attempt loop of `_call_model` (lines 301-341): exceptions are
appended to `errors` and suppressed; the first attempt yielding text returns
it; if the sequence is exhausted, a single `RuntimeError` carrying the last
recorded error (or none) is raised, modelled as `Except.error`. -/
def call_model_attempts : List Attempt → List String → Except (Option String) String
  | [], errors => Except.error errors.getLast?
  | Attempt.exc e :: rest, errors => call_model_attempts rest (errors ++ [e])
  | Attempt.resp r :: rest, errors =>
    match attemptText r with
    | some t => Except.ok t
    | none => call_model_attempts rest errors

/-- The last underlying error of an attempt sequence (`errors[-1]` at
line 340). -/
def lastError (attempts : List Attempt) : Option String :=
  (attempts.filterMap
    (fun a => match a with | Attempt.exc e => some e | Attempt.resp _ => none)).getLast?

/-! Concrete fixtures used by the witness theorems. -/

/-- A concrete FAQ record (from `faq_kb.py`). -/
def faqW : Faq :=
  ⟨"How do I reset my password?",
   "Click \x27Forgot Password\x27 on the login page.", "Account"⟩

/-- Environment: one FAQ, every similarity 80, backend unavailable. -/
def envW80 : Env := ⟨[faqW], fun _ _ => 80, false, fun _ => Except.error "down"⟩

/-- Environment: one FAQ, every similarity 65, backend unavailable. -/
def envW65 : Env := ⟨[faqW], fun _ _ => 65, false, fun _ => Except.error "down"⟩

/-- Environment: one FAQ, every similarity 55, backend unavailable. -/
def envW55 : Env := ⟨[faqW], fun _ _ => 55, false, fun _ => Except.error "down"⟩

/-- Environment: one FAQ, every similarity 30, backend available but failing. -/
def envW30 : Env := ⟨[faqW], fun _ _ => 30, true, fun _ => Except.error "down"⟩

/-- A non-dict payload with no extractable structure and a long
representation. -/
def respLong : Resp :=
  Resp.robj none none none none "an unparsed but long response body"

/-- A non-dict payload with no extractable structure and a short
representation. -/
def respShort : Resp := Resp.robj none none none none "tiny"

/-! Helper lemmas. -/

/-- Characterization of the matcher accumulator loop: either no record in the
remaining corpus beats the incoming best score and the accumulator comes back
unchanged, or the loop returns the first record attaining the (strictly
improved) maximum score, together with that score. -/
theorem findLoop_spec (sc : Faq → Nat) (l : List Faq) :
    ∀ (best : Option Faq) (bs : Nat),
      (findLoop sc l best bs = (best, bs) ∧ ∀ f ∈ l, sc f ≤ bs) ∨
      (∃ n, ∃ hn : n < l.length,
        findLoop sc l best bs = (some (l.get ⟨n, hn⟩), sc (l.get ⟨n, hn⟩)) ∧
        bs < sc (l.get ⟨n, hn⟩) ∧
        (∀ f ∈ l, sc f ≤ sc (l.get ⟨n, hn⟩)) ∧
        (∀ m, ∀ hm : m < l.length, m < n →
          sc (l.get ⟨m, hm⟩) < sc (l.get ⟨n, hn⟩))) := by
  induction l with
  | nil =>
    intro best bs
    left
    exact ⟨rfl, by simp⟩
  | cons f rest ih =>
    intro best bs
    by_cases h : sc f > bs
    · right
      rcases ih (some f) (sc f) with ⟨heq, hall⟩ | ⟨n, hn, heq, hlt, hall, hfirst⟩
      · refine ⟨0, by simp, ?_, ?_, ?_, ?_⟩
        · simpa [findLoop, h] using heq
        · simpa using h
        · intro g hg
          rcases List.mem_cons.mp hg with rfl | hg
          · exact le_refl _
          · exact hall g hg
        · intro m hm hlt0
          omega
      · refine ⟨n + 1, Nat.succ_lt_succ hn, ?_, ?_, ?_, ?_⟩
        · simpa [findLoop, h] using heq
        · exact lt_trans h hlt
        · intro g hg
          rcases List.mem_cons.mp hg with rfl | hg
          · exact le_of_lt hlt
          · exact hall g hg
        · intro m hm hmn
          cases m with
          | zero => exact hlt
          | succ m => exact hfirst m (Nat.lt_of_succ_lt_succ hm) (Nat.lt_of_succ_lt_succ hmn)
    · rcases ih best bs with ⟨heq, hall⟩ | ⟨n, hn, heq, hlt, hall, hfirst⟩
      · left
        refine ⟨by simpa [findLoop, h] using heq, ?_⟩
        intro g hg
        rcases List.mem_cons.mp hg with rfl | hg
        · exact Nat.le_of_not_lt h
        · exact hall g hg
      · right
        refine ⟨n + 1, Nat.succ_lt_succ hn, ?_, ?_, ?_, ?_⟩
        · simpa [findLoop, h] using heq
        · exact hlt
        · intro g hg
          rcases List.mem_cons.mp hg with rfl | hg
          · exact le_trans (Nat.le_of_not_lt h) (le_of_lt hlt)
          · exact hall g hg
        · intro m hm hmn
          cases m with
          | zero => exact lt_of_le_of_lt (Nat.le_of_not_lt h) hlt
          | succ m => exact hfirst m (Nat.lt_of_succ_lt_succ hm) (Nat.lt_of_succ_lt_succ hmn)

/-- When every record scores below 60, the matcher returns no match and
confidence exactly 0. -/
theorem find_matching_faq_of_all_below (env : Env) (query : String)
    (h : ∀ f ∈ env.faq_db, matchScore env query f < 60) :
    find_matching_faq env query = (none, 0) := by
  rcases findLoop_spec (matchScore env query) env.faq_db none 0 with
    ⟨heq, _⟩ | ⟨n, hn, heq, _, _, _⟩
  · simp [find_matching_faq, heq]
  · have hlt : matchScore env query (env.faq_db.get ⟨n, hn⟩) < 60 :=
      h _ (env.faq_db.get_mem _ _)
    simp only [find_matching_faq, heq]
    rw [if_neg (by omega)]

/-- Every path through the post-matcher stage leaves the outcome
non-escalated with no escalation reason. -/
theorem afterMatch_not_escalated (env : Env) (q : String) (faq? : Option Faq)
    (confidence : ℚ) :
    (afterMatch env q faq? confidence).outcome.escalated = false ∧
    (afterMatch env q faq? confidence).outcome.escalation_reason = none := by
  constructor
  · unfold afterMatch tryModel fallbacks genericFallback
    rcases faq? with _ | faq
    · repeat' split
      all_goals simp
    · repeat' split
      all_goals simp
  · unfold afterMatch tryModel fallbacks genericFallback
    rcases faq? with _ | faq
    · repeat' split
      all_goals simp
    · repeat' split
      all_goals simp

/-- When the query is non-empty and triggers neither the greeting nor the
escalation branch, `process_query` runs the matcher and hands over to the
post-matcher stage. -/
theorem process_query_after (env : Env) (query : String)
    (hq : pyStrip query ≠ "") (hg : is_greeting (pyStrip query) = false)
    (he : detect_escalation_keywords (pyStrip query) = false) :
    process_query env query =
      afterMatch env (pyStrip query) (find_matching_faq env (pyStrip query)).1
        (find_matching_faq env (pyStrip query)).2 := by
  simp only [process_query]
  rw [if_neg hq, if_neg (by simp [hg]), if_neg (by simp [he])]

/-- The outcome produced by the fallback stage does not depend on how many
backend calls were made before it. -/
theorem fallbacks_outcome_bc (faq? : Option Faq) (c : ℚ) (b b' : Nat) :
    (fallbacks faq? c b).outcome = (fallbacks faq? c b').outcome := by
  rcases faq? with _ | faq
  · rfl
  · simp only [fallbacks]
    split_ifs
    · rfl
    · rfl

/-- With the backend flagged unavailable, the backend step goes straight to
the fallbacks. -/
theorem tryModel_unavailable (env : Env) (q : String) (faq? : Option Faq)
    (c : ℚ) :
    tryModel { env with llm_available := false } q faq? c =
      fallbacks faq? c 0 := rfl

/-- When the backend call raises, the backend step produces the same outcome
as the fallback stage. -/
theorem tryModel_outcome_of_error (env : Env) (q : String) (faq? : Option Faq)
    (c : ℚ) (e : String)
    (hcall : env.callModel (mkPromptWith faq? q) = Except.error e) :
    (tryModel env q faq? c).outcome = (fallbacks faq? c 0).outcome := by
  simp only [tryModel]
  by_cases hl : env.llm_available = true
  · rw [if_pos hl, hcall]
    exact fallbacks_outcome_bc faq? c 1 0
  · rw [if_neg hl]

/-- The attempt loop of `_call_model`, when every attempt fails to yield
text, raises exactly one aggregated failure carrying the last recorded
underlying error. -/
theorem call_model_attempts_all_fail (attempts : List Attempt) :
    (∀ a ∈ attempts, attemptYield a = none) →
    ∀ errors, call_model_attempts attempts errors =
      Except.error ((errors ++ attempts.filterMap
        (fun a => match a with
          | Attempt.exc e => some e
          | Attempt.resp _ => none)).getLast?) := by
  induction attempts with
  | nil =>
    intro h errors
    simp [call_model_attempts]
  | cons a rest ih =>
    intro h errors
    rcases a with e | r
    · have hrec := ih (fun x hx => h x (List.mem_cons_of_mem _ hx)) (errors ++ [e])
      simp only [call_model_attempts]
      rw [hrec, List.filterMap_cons]
      simp [List.append_assoc]
    · have hy : attemptText r = none := by
        simpa [attemptYield] using h (Attempt.resp r) (List.mem_cons_self _ _)
      have hrec := ih (fun x hx => h x (List.mem_cons_of_mem _ hx)) errors
      simp only [call_model_attempts, hy]
      rw [hrec, List.filterMap_cons]

/-! Claim theorems. -/

/-- C1: for every query, the outcome of `process_query` has
`escalation_reason` set exactly when `escalated` is true, and in every
non-escalated outcome the reason is `None`. -/
theorem C1_escalation_reason_iff_escalated (env : Env) (query : String) :
    (process_query env query).outcome.escalation_reason.isSome =
      (process_query env query).outcome.escalated ∧
    ((process_query env query).outcome.escalated = false →
      (process_query env query).outcome.escalation_reason = none) := by
  simp only [process_query]
  split_ifs with h1 h2 h3
  · simp
  · simp
  · simp
  · obtain ⟨ha, hb⟩ := afterMatch_not_escalated env (pyStrip query)
      (find_matching_faq env (pyStrip query)).1
      (find_matching_faq env (pyStrip query)).2
    constructor
    · rw [ha, hb]
      rfl
    · intro
      exact hb

/-- Witness for C1 at a concrete environment and query. -/
theorem C1_escalation_reason_iff_escalated_witness :
    ((process_query envW80 "hello").outcome.escalation_reason.isSome =
      (process_query envW80 "hello").outcome.escalated) ∧
    ((process_query envW80 "hello").outcome.escalated = false →
      (process_query envW80 "hello").outcome.escalation_reason = none) :=
  C1_escalation_reason_iff_escalated envW80 "hello"

/-- C2: for every non-empty, non-greeting query on which the escalation
detector fires (a keyword occurs case-insensitively in the trimmed query),
`process_query` escalates with the fixed descriptive reason string and
performs no FAQ matching and no backend call. -/
theorem C2_escalation_short_circuit (env : Env) (query : String)
    (hq : pyStrip query ≠ "") (hg : is_greeting (pyStrip query) = false)
    (he : detect_escalation_keywords (pyStrip query) = true) :
    process_query env query =
      ⟨⟨"This looks urgent. I\x27m escalating this to a human support agent.",
        true, some "Contains urgent/critical keywords", none⟩, 0, 0⟩ := by
  simp only [process_query]
  rw [if_neg hq, if_neg (by simp [hg]), if_pos he]

/-- Witness for C2: a concrete query containing "urgent". -/
theorem C2_escalation_short_circuit_witness :
    process_query envW80 "my payment is URGENT" =
      ⟨⟨"This looks urgent. I\x27m escalating this to a human support agent.",
        true, some "Contains urgent/critical keywords", none⟩, 0, 0⟩ :=
  C2_escalation_short_circuit envW80 "my payment is URGENT"
    (by decide) (by decide) (by decide)

/-- C8: for every query that after trimming and case-folding is a greeting
token, `process_query` returns the fixed welcome text, not escalated, with
exactly 3 quick actions, bypassing escalation detection, FAQ matching and the
backend. -/
theorem C8_greeting_short_circuit (env : Env) (query : String)
    (hg : is_greeting (pyStrip query) = true) :
    process_query env query =
      ⟨⟨"Hi there! 👋 I\x27m your assistant — how can I help today?",
        false, none,
        some ["Check FAQs", "Report an issue", "Talk to a human"]⟩, 0, 0⟩ ∧
    ((process_query env query).outcome.suggested_actions.getD []).length = 3 := by
  have hq : pyStrip query ≠ "" := by
    intro h
    rw [h] at hg
    exact absurd hg (by decide)
  have h : process_query env query =
      ⟨⟨"Hi there! 👋 I\x27m your assistant — how can I help today?",
        false, none,
        some ["Check FAQs", "Report an issue", "Talk to a human"]⟩, 0, 0⟩ := by
    simp only [process_query]
    rw [if_neg hq, if_pos hg]
  refine ⟨h, ?_⟩
  rw [h]
  rfl

/-- Witness for C8: a concrete mixed-case greeting with surrounding
whitespace. -/
theorem C8_greeting_short_circuit_witness :
    (process_query envW80 "  HeLLo  " =
      ⟨⟨"Hi there! 👋 I\x27m your assistant — how can I help today?",
        false, none,
        some ["Check FAQs", "Report an issue", "Talk to a human"]⟩, 0, 0⟩) ∧
    ((process_query envW80 "  HeLLo  ").outcome.suggested_actions.getD
        []).length = 3 :=
  C8_greeting_short_circuit envW80 "  HeLLo  " (by decide)

/-- C4: for every query and corpus, `find_matching_faq` never throws (it is a
total function, settled below for every case), yields no match on an empty
corpus, returns `(None, 0.0)` whenever the best raw score is below 60
regardless of which record scored highest, and — completeness — whenever some
record scores at least 60 it does return a record: the single
highest-scoring one, the first on exact ties, with confidence equal to its
raw 0-100 score divided by 100; conversely any returned record is exactly
that first highest-scoring record. -/
theorem C4_matcher_contract (env : Env) (query : String) :
    (env.faq_db = [] → find_matching_faq env query = (none, 0)) ∧
    ((∀ f ∈ env.faq_db, matchScore env query f < 60) →
      find_matching_faq env query = (none, 0)) ∧
    ((∃ f ∈ env.faq_db, 60 ≤ matchScore env query f) →
      ∃ n, ∃ hn : n < env.faq_db.length,
        find_matching_faq env query =
          (some (env.faq_db.get ⟨n, hn⟩),
           (matchScore env query (env.faq_db.get ⟨n, hn⟩) : ℚ) / 100) ∧
        60 ≤ matchScore env query (env.faq_db.get ⟨n, hn⟩) ∧
        (∀ f ∈ env.faq_db,
          matchScore env query f ≤ matchScore env query (env.faq_db.get ⟨n, hn⟩)) ∧
        (∀ m, ∀ hm : m < env.faq_db.length, m < n →
          matchScore env query (env.faq_db.get ⟨m, hm⟩) <
            matchScore env query (env.faq_db.get ⟨n, hn⟩))) ∧
    (∀ faq c, find_matching_faq env query = (some faq, c) →
      ∃ n, ∃ hn : n < env.faq_db.length,
        env.faq_db.get ⟨n, hn⟩ = faq ∧
        60 ≤ matchScore env query faq ∧
        c = (matchScore env query faq : ℚ) / 100 ∧
        (∀ f ∈ env.faq_db, matchScore env query f ≤ matchScore env query faq) ∧
        (∀ m, ∀ hm : m < env.faq_db.length, m < n →
          matchScore env query (env.faq_db.get ⟨m, hm⟩) <
            matchScore env query faq)) := by
  refine ⟨?_, find_matching_faq_of_all_below env query, ?_, ?_⟩
  · intro hdb
    simp [find_matching_faq, hdb, findLoop]
  · intro hex
    rcases findLoop_spec (matchScore env query) env.faq_db none 0 with
      ⟨heq, hall⟩ | ⟨n, hn, heq, hlt, hall, hfirst⟩
    · exfalso
      obtain ⟨f, hf, h60⟩ := hex
      have := hall f hf
      omega
    · obtain ⟨f, hf, h60f⟩ := hex
      have h60 : 60 ≤ matchScore env query (env.faq_db.get ⟨n, hn⟩) :=
        le_trans h60f (hall f hf)
      refine ⟨n, hn, ?_, h60, hall, hfirst⟩
      simp only [find_matching_faq, heq]
      rw [if_pos h60]
  · intro faq c hfc
    rcases findLoop_spec (matchScore env query) env.faq_db none 0 with
      ⟨heq, hall⟩ | ⟨n, hn, heq, hlt, hall, hfirst⟩
    · exfalso
      simp [find_matching_faq, heq] at hfc
    · by_cases h60 : 60 ≤ matchScore env query (env.faq_db.get ⟨n, hn⟩)
      · have hf : find_matching_faq env query =
            (some (env.faq_db.get ⟨n, hn⟩),
             (matchScore env query (env.faq_db.get ⟨n, hn⟩) : ℚ) / 100) := by
          simp only [find_matching_faq, heq]
          rw [if_pos h60]
        rw [hf] at hfc
        have h1 : some (env.faq_db.get ⟨n, hn⟩) = some faq :=
          congrArg Prod.fst hfc
        have h2 : (matchScore env query (env.faq_db.get ⟨n, hn⟩) : ℚ) / 100 = c :=
          congrArg Prod.snd hfc
        have h1' : env.faq_db.get ⟨n, hn⟩ = faq := Option.some.inj h1
        subst h1'
        exact ⟨n, hn, rfl, h60, h2.symm, hall, hfirst⟩
      · exfalso
        simp only [find_matching_faq, heq] at hfc
        rw [if_neg h60] at hfc
        simp at hfc

/-- Witness for C4: on a corpus where every record scores 55 the matcher
returns no match with confidence 0, and on a corpus with a record scoring 80
the completeness direction produces that record with confidence 80/100. -/
theorem C4_matcher_contract_witness :
    find_matching_faq envW55 "where is my parcel" = (none, 0) ∧
    (∃ n, ∃ hn : n < envW80.faq_db.length,
      find_matching_faq envW80 "reset my password" =
        (some (envW80.faq_db.get ⟨n, hn⟩),
         (matchScore envW80 "reset my password"
            (envW80.faq_db.get ⟨n, hn⟩) : ℚ) / 100) ∧
      60 ≤ matchScore envW80 "reset my password" (envW80.faq_db.get ⟨n, hn⟩) ∧
      (∀ f ∈ envW80.faq_db,
        matchScore envW80 "reset my password" f ≤
          matchScore envW80 "reset my password" (envW80.faq_db.get ⟨n, hn⟩)) ∧
      (∀ m, ∀ hm : m < envW80.faq_db.length, m < n →
        matchScore envW80 "reset my password" (envW80.faq_db.get ⟨m, hm⟩) <
          matchScore envW80 "reset my password" (envW80.faq_db.get ⟨n, hn⟩))) :=
  ⟨(C4_matcher_contract envW55 "where is my parcel").2.1 (by decide),
   (C4_matcher_contract envW80 "reset my password").2.2.1 (by decide)⟩

/-- C10: whenever every raw score is within the scorer\x27s 0-100 range, the
matcher returns either no record with confidence exactly 0, or a record with
confidence in [0.6, 1]; consequently the Resolution Engine\x27s
`confidence >= 0.5` fallback test is equivalent to a match existing. -/
theorem C10_confidence_dichotomy (env : Env) (query : String)
    (hbound : ∀ f ∈ env.faq_db, matchScore env query f ≤ 100) :
    (find_matching_faq env query = (none, 0) ∨
      ∃ faq c, find_matching_faq env query = (some faq, c) ∧
        (60 : ℚ) / 100 ≤ c ∧ c ≤ 1) ∧
    (((find_matching_faq env query).1.isSome = true ∧
        (1 : ℚ) / 2 ≤ (find_matching_faq env query).2) ↔
      (find_matching_faq env query).1.isSome = true) := by
  rcases findLoop_spec (matchScore env query) env.faq_db none 0 with
    ⟨heq, _⟩ | ⟨n, hn, heq, _, _, _⟩
  · have hf : find_matching_faq env query = (none, 0) := by
      simp [find_matching_faq, heq]
    refine ⟨Or.inl hf, ?_⟩
    rw [hf]
    simp
  · by_cases h60 : 60 ≤ matchScore env query (env.faq_db.get ⟨n, hn⟩)
    · have hf : find_matching_faq env query =
          (some (env.faq_db.get ⟨n, hn⟩),
           (matchScore env query (env.faq_db.get ⟨n, hn⟩) : ℚ) / 100) := by
        simp only [find_matching_faq, heq]
        rw [if_pos h60]
      have hb : matchScore env query (env.faq_db.get ⟨n, hn⟩) ≤ 100 :=
        hbound _ (env.faq_db.get_mem _ _)
      have hc1 : (60 : ℚ) ≤ (matchScore env query (env.faq_db.get ⟨n, hn⟩) : ℚ) := by
        exact_mod_cast h60
      have hc2 : (matchScore env query (env.faq_db.get ⟨n, hn⟩) : ℚ) ≤ 100 := by
        exact_mod_cast hb
      refine ⟨Or.inr ⟨_, _, hf, by linarith, by linarith⟩, ?_⟩
      rw [hf]
      simp only [Option.isSome_some, true_and]
      constructor
      · intro
        trivial
      · intro
        linarith
    · have hf : find_matching_faq env query = (none, 0) := by
        simp only [find_matching_faq, heq]
        rw [if_neg h60]
      refine ⟨Or.inl hf, ?_⟩
      rw [hf]
      simp

/-- C3: for every query on which the matcher returns a FAQ with confidence at
least 0.75 (raw token-set similarity at least 75) and that triggers neither
the greeting nor the escalation branch, `process_query` returns that FAQ\x27s
answer verbatim embedded in the formatted reply, not escalated, with zero
backend invocations. -/
theorem C3_high_confidence_direct_answer (env : Env) (query : String)
    (faq : Faq) (c : ℚ)
    (hq : pyStrip query ≠ "") (hg : is_greeting (pyStrip query) = false)
    (he : detect_escalation_keywords (pyStrip query) = false)
    (hm : find_matching_faq env (pyStrip query) = (some faq, c))
    (hc : (75 : ℚ) / 100 ≤ c) :
    process_query env query =
      ⟨⟨"Based on our knowledge base:\n\nQ: " ++ faq.question ++ "\nA: " ++
          faq.answer ++
          "\n\nWould you like more details or to talk to a human?",
        false, none, none⟩, 1, 0⟩ ∧
    ∃ pre post, (process_query env query).outcome.reply_text =
      pre ++ (faq.answer ++ post) := by
  have h := process_query_after env query hq hg he
  rw [hm] at h
  have hpq : process_query env query =
      ⟨⟨"Based on our knowledge base:\n\nQ: " ++ faq.question ++ "\nA: " ++
          faq.answer ++
          "\n\nWould you like more details or to talk to a human?",
        false, none, none⟩, 1, 0⟩ := by
    rw [h]
    show afterMatch env (pyStrip query) (some faq) c = _
    have hc2 : c ≥ (75 : ℚ) / 100 := hc
    simp only [afterMatch]
    rw [if_pos hc2]
  refine ⟨hpq, ?_⟩
  refine ⟨"Based on our knowledge base:\n\nQ: " ++ faq.question ++ "\nA: ",
    "\n\nWould you like more details or to talk to a human?", ?_⟩
  rw [hpq]
  show "Based on our knowledge base:\n\nQ: " ++ faq.question ++ "\nA: " ++
      faq.answer ++ "\n\nWould you like more details or to talk to a human?" = _
  rw [String.append_assoc]

/-- Witness for C3: concrete corpus where the single FAQ scores 80. -/
theorem C3_high_confidence_direct_answer_witness :
    (process_query envW80 "reset my password" =
      ⟨⟨"Based on our knowledge base:\n\nQ: " ++ faqW.question ++ "\nA: " ++
          faqW.answer ++
          "\n\nWould you like more details or to talk to a human?",
        false, none, none⟩, 1, 0⟩) ∧
    ∃ pre post, (process_query envW80 "reset my password").outcome.reply_text =
      pre ++ (faqW.answer ++ post) := by
  refine C3_high_confidence_direct_answer envW80 "reset my password" faqW
    (((80 : Nat) : ℚ) / 100) (by decide) (by decide) (by decide) ?_ ?_
  · have hloop : findLoop (matchScore envW80 (pyStrip "reset my password"))
        envW80.faq_db none 0 = (some faqW, 80) := by decide
    simp only [find_matching_faq, hloop]
    norm_num
  · norm_num

/-- Counterexample for C5 as stated: with a corpus whose best token-set
similarity to the query is 55 — inside the claimed band [50, 75) — and the
Adapter unavailable, `process_query` returns the generic fallback, not the
soft suggestion referencing the FAQ: the matcher\x27s 60-score floor discards
the match first. -/
theorem C5_low_band_counterexample :
    envW55.llm_available = false ∧
    (∀ f ∈ envW55.faq_db,
      matchScore envW55 (pyStrip "where is my parcel") f = 55) ∧
    is_greeting (pyStrip "where is my parcel") = false ∧
    detect_escalation_keywords (pyStrip "where is my parcel") = false ∧
    (process_query envW55 "where is my parcel").outcome =
      ⟨"Sorry — I can\x27t generate a full answer right now. I can show relevant FAQs or connect you to human support. Which would you prefer?",
        false, none, some ["Show FAQs", "Talk to human"]⟩ ∧
    (∀ f ∈ envW55.faq_db,
      (process_query envW55 "where is my parcel").outcome.reply_text ≠
        "It looks like this FAQ might help:\n\nQ: " ++ f.question ++
          "\nA: " ++ f.answer ++
          "\n\nIf that doesn\x27t answer your question, reply and I\x27ll connect you to support.") := by
  refine ⟨rfl, by decide, by decide, by decide, rfl, by decide⟩

/-- C5 (amended): for every query for which the matcher actually returns a
FAQ with confidence in [0.5, 0.75) — which, given the matcher\x27s 60-score
floor, means raw similarity in [60, 75) — and that triggers neither the
greeting nor the escalation branch, when the Adapter is unavailable or its
call failed, `process_query` returns the soft-suggestion reply referencing
that FAQ, not escalated. -/
theorem C5_medium_confidence_soft_suggestion (env : Env) (query : String)
    (faq : Faq) (c : ℚ)
    (hq : pyStrip query ≠ "") (hg : is_greeting (pyStrip query) = false)
    (he : detect_escalation_keywords (pyStrip query) = false)
    (hm : find_matching_faq env (pyStrip query) = (some faq, c))
    (hc1 : (1 : ℚ) / 2 ≤ c) (hc2 : c < (75 : ℚ) / 100)
    (hun : env.llm_available = false ∨
      ∃ e, env.callModel (mkPromptWith (some faq) (pyStrip query)) =
        Except.error e) :
    (process_query env query).outcome =
      ⟨"It looks like this FAQ might help:\n\nQ: " ++ faq.question ++
          "\nA: " ++ faq.answer ++
          "\n\nIf that doesn\x27t answer your question, reply and I\x27ll connect you to support.",
        false, none, none⟩ := by
  have h := process_query_after env query hq hg he
  rw [hm] at h
  rw [h]
  show (afterMatch env (pyStrip query) (some faq) c).outcome = _
  have hc2' : ¬ c ≥ (75 : ℚ) / 100 := not_le.mpr hc2
  simp only [afterMatch]
  rw [if_neg hc2']
  have hfb : ∀ bc : Nat, (fallbacks (some faq) c bc).outcome =
      ⟨"It looks like this FAQ might help:\n\nQ: " ++ faq.question ++
          "\nA: " ++ faq.answer ++
          "\n\nIf that doesn\x27t answer your question, reply and I\x27ll connect you to support.",
        false, none, none⟩ := by
    intro bc
    have hc1' : c ≥ (1 : ℚ) / 2 := hc1
    simp only [fallbacks]
    rw [if_pos hc1']
  rcases hun with hun | ⟨e, hun⟩
  · unfold tryModel
    rw [hun]
    simp only [Bool.false_eq_true, if_false]
    exact hfb 0
  · unfold tryModel
    by_cases hl : env.llm_available = true
    · rw [if_pos hl, hun]
      exact hfb 1
    · rw [if_neg hl]
      exact hfb 0

/-- Witness for C5 (amended): a concrete corpus scoring 65 with the Adapter
unavailable. -/
theorem C5_medium_confidence_soft_suggestion_witness :
    (process_query envW65 "reset my password").outcome =
      ⟨"It looks like this FAQ might help:\n\nQ: " ++ faqW.question ++
          "\nA: " ++ faqW.answer ++
          "\n\nIf that doesn\x27t answer your question, reply and I\x27ll connect you to support.",
        false, none, none⟩ := by
  refine C5_medium_confidence_soft_suggestion envW65 "reset my password" faqW
    (((65 : Nat) : ℚ) / 100) (by decide) (by decide) (by decide) ?_ ?_ ?_ ?_
  · have hloop : findLoop (matchScore envW65 (pyStrip "reset my password"))
        envW65.faq_db none 0 = (some faqW, 65) := by decide
    simp only [find_matching_faq, hloop]
    norm_num
  · norm_num
  · norm_num
  · exact Or.inl rfl

/-- C9: for every non-empty, non-greeting, non-escalating query on which
every record scores below 60 (so there is no FAQ match), when the Adapter is
unavailable or its call failed, `process_query` returns the generic fallback
text with quick actions exactly `["Show FAQs", "Talk to human"]`. -/
theorem C9_generic_fallback (env : Env) (query : String)
    (hq : pyStrip query ≠ "") (hg : is_greeting (pyStrip query) = false)
    (he : detect_escalation_keywords (pyStrip query) = false)
    (hlow : ∀ f ∈ env.faq_db, matchScore env (pyStrip query) f < 60)
    (hun : env.llm_available = false ∨
      ∃ e, env.callModel (mkPromptWith none (pyStrip query)) =
        Except.error e) :
    (process_query env query).outcome =
      ⟨"Sorry — I can\x27t generate a full answer right now. I can show relevant FAQs or connect you to human support. Which would you prefer?",
        false, none, some ["Show FAQs", "Talk to human"]⟩ := by
  have hm := find_matching_faq_of_all_below env (pyStrip query) hlow
  have h := process_query_after env query hq hg he
  rw [hm] at h
  rw [h]
  show (afterMatch env (pyStrip query) none 0).outcome = _
  simp only [afterMatch]
  rcases hun with hun | ⟨e, hun⟩
  · unfold tryModel
    rw [hun]
    simp only [Bool.false_eq_true, if_false]
    rfl
  · unfold tryModel
    by_cases hl : env.llm_available = true
    · rw [if_pos hl, hun]
      rfl
    · rw [if_neg hl]
      rfl

/-- Witness for C9: concrete corpus scoring 30 with a failing backend. -/
theorem C9_generic_fallback_witness :
    (process_query envW30 "completely different topic").outcome =
      ⟨"Sorry — I can\x27t generate a full answer right now. I can show relevant FAQs or connect you to human support. Which would you prefer?",
        false, none, some ["Show FAQs", "Talk to human"]⟩ :=
  C9_generic_fallback envW30 "completely different topic"
    (by decide) (by decide) (by decide) (by decide)
    (Or.inr ⟨"down", rfl⟩)

/-- Witness for C10: concrete corpus with every score 80 and within bounds. -/
theorem C10_confidence_dichotomy_witness :
    (find_matching_faq envW80 "reset my password" = (none, 0) ∨
      ∃ faq c, find_matching_faq envW80 "reset my password" = (some faq, c) ∧
        (60 : ℚ) / 100 ≤ c ∧ c ≤ 1) ∧
    (((find_matching_faq envW80 "reset my password").1.isSome = true ∧
        (1 : ℚ) / 2 ≤ (find_matching_faq envW80 "reset my password").2) ↔
      (find_matching_faq envW80 "reset my password").1.isSome = true) :=
  C10_confidence_dichotomy envW80 "reset my password" (by decide)

/-- C6: in `_call_model`, every individual call-attempt exception is captured
and suppressed (the loop records it and moves on); if every attempt in the
sequence fails to yield text, exactly one aggregated failure carrying the
last underlying error is raised; and `process_query` catches that failure
internally: when the backend call errors, the outcome is the same well-formed
outcome produced with the backend absent, so no backend exception reaches the
caller. -/
theorem C6_failures_aggregated_and_contained :
    (∀ (errors : List String) (e : String) (rest : List Attempt),
      call_model_attempts (Attempt.exc e :: rest) errors =
        call_model_attempts rest (errors ++ [e])) ∧
    (∀ attempts : List Attempt, (∀ a ∈ attempts, attemptYield a = none) →
      call_model_attempts attempts [] = Except.error (lastError attempts)) ∧
    (∀ (env : Env) (query : String) (e : String),
      env.callModel (mkPrompt env (pyStrip query)) = Except.error e →
      (process_query env query).outcome =
        (process_query { env with llm_available := false } query).outcome) := by
  refine ⟨fun errors e rest => rfl, ?_, ?_⟩
  · intro attempts h
    have := call_model_attempts_all_fail attempts h []
    simpa [lastError] using this
  · intro env query e hcall
    simp only [mkPrompt] at hcall
    by_cases h1 : pyStrip query = ""
    · simp [process_query, h1]
    by_cases h2 : is_greeting (pyStrip query) = true
    · simp [process_query, h1, h2]
    by_cases h3 : detect_escalation_keywords (pyStrip query) = true
    · simp [process_query, h1, h2, h3]
    have hg : is_greeting (pyStrip query) = false := by simpa using h2
    have hd : detect_escalation_keywords (pyStrip query) = false := by
      simpa using h3
    have hL := process_query_after env query h1 hg hd
    have hR := process_query_after { env with llm_available := false } query
      h1 hg hd
    rw [hL, hR]
    have hfind : find_matching_faq { env with llm_available := false }
        (pyStrip query) = find_matching_faq env (pyStrip query) := rfl
    rw [hfind]
    generalize hfm : find_matching_faq env (pyStrip query) = fm
    rw [hfm] at hcall
    obtain ⟨faq?, c⟩ := fm
    rcases faq? with _ | faq
    · simp only [afterMatch]
      rw [tryModel_unavailable]
      exact tryModel_outcome_of_error env (pyStrip query) none c e hcall
    · by_cases hc : c ≥ (75 : ℚ) / 100
      · simp only [afterMatch]
        rw [if_pos hc, if_pos hc]
      · simp only [afterMatch]
        rw [if_neg hc, if_neg hc, tryModel_unavailable]
        exact tryModel_outcome_of_error env (pyStrip query) (some faq) c e hcall

/-- Witness for C6: a concrete failing attempt sequence and a concrete
environment with an erroring backend. -/
theorem C6_failures_aggregated_and_contained_witness :
    (call_model_attempts (Attempt.exc "boom" :: [Attempt.resp respShort])
        ["earlier"] =
      call_model_attempts [Attempt.resp respShort] (["earlier"] ++ ["boom"])) ∧
    (call_model_attempts
        [Attempt.exc "first failure", Attempt.resp respShort,
          Attempt.exc "last failure"] [] =
      Except.error (lastError
        [Attempt.exc "first failure", Attempt.resp respShort,
          Attempt.exc "last failure"])) ∧
    ((process_query envW30 "completely different topic").outcome =
      (process_query { envW30 with llm_available := false }
        "completely different topic").outcome) :=
  ⟨C6_failures_aggregated_and_contained.1 ["earlier"] "boom"
      [Attempt.resp respShort],
    C6_failures_aggregated_and_contained.2.1
      [Attempt.exc "first failure", Attempt.resp respShort,
        Attempt.exc "last failure"] (by decide),
    C6_failures_aggregated_and_contained.2.2 envW30
      "completely different topic" "down" rfl⟩

/-- Counterexample for C7 as stated: the empty dict payload has all known
result keys absent, so per the claim the attempt should yield no text (its
stringification has trimmed length 2, not more than 10) — but `_extract_text`
stringifies dicts itself as a last resort, bypassing the 10-character guard,
and the attempt accepts the 2-character string as the call\x27s result. -/
theorem C7_dict_counterexample :
    attemptText (Resp.rdict []) = some "\x7b\x7d" ∧
    ¬ 10 < (pyStrip (respStr (Resp.rdict []))).length := by
  exact ⟨rfl, by decide⟩

/-- C7 (amended): for every payload on which structured extraction yields no
text (returns nothing or an empty string), the attempt falls back to the
payload\x27s textual representation and accepts its trimmed form exactly when
it exceeds 10 characters.  Dict payloads are excluded: on those extraction
itself returns `str(resp)` as a last resort, without the length guard. -/
theorem C7_fallback_length_guard (r : Resp)
    (h : extract_text r = none ∨ extract_text r = some "") :
    attemptText r =
      if 10 < (pyStrip (respStr r)).length then some (pyStrip (respStr r))
      else none := by
  have hsf : strFallback r =
      if 10 < (pyStrip (respStr r)).length then some (pyStrip (respStr r))
      else none := by
    unfold strFallback
    by_cases h10 : 10 < (pyStrip (respStr r)).length
    · rw [if_pos h10]
      have hps : pyStrip (respStr r) ≠ "" := by
        intro he
        rw [he] at h10
        simp at h10
      have hne : respStr r ≠ "" := by
        intro he
        rw [he] at hps
        exact hps rfl
      rw [if_pos ⟨hne, hps, h10⟩]
    · rw [if_neg h10, if_neg]
      intro hand
      exact h10 hand.2.2
  rcases h with h | h
  · unfold attemptText
    rw [h]
    exact hsf
  · unfold attemptText
    rw [h]
    exact hsf

/-- Witness for C7 (amended): a structureless payload with a long
representation is accepted through the guard. -/
theorem C7_fallback_length_guard_witness :
    attemptText respLong =
      if 10 < (pyStrip (respStr respLong)).length then
        some (pyStrip (respStr respLong))
      else none :=
  C7_fallback_length_guard respLong (Or.inl rfl)

end SupportAgent
